import Mathlib

/-!
Shallow embedding of the k8s-metrics-collector service.

The canonical variant (with cluster-wide aggregate columns) is embedded at
top level: data type `MetricsData`, SQLite table state `DB`, the handlers
`getMetrics`, `startBenchmark`, `resetDB`, and one tick of the collector
loop `collectMetricsTick`.  The simpler 30-second variant (no aggregate
columns, non-transactional reset) is embedded in namespace `Simple`.

Modelling conventions:
- `DATETIME` timestamps are abstract instants, modelled as `Nat`.
- SQL `REAL` columns (percentages) are modelled as `ℚ`; the Go source
  computes them with `float64` division, which is exact rational division
  for the claims at issue (the spec states a 1e-9 tolerance; the rational
  model proves exact equality, which is within any tolerance).
- The `id INTEGER PRIMARY KEY AUTOINCREMENT` column and the
  `sqlite_sequence` counter are modelled by `DB.seq`: a fresh row gets
  id `seq + 1` and the counter advances.
- `ORDER BY timestamp DESC` with no further sort key: SQLite leaves the
  relative order of equal keys unspecified; the model returns equal keys
  in table (insertion) order, i.e. a stable sort over the table scan,
  matching observed SQLite behaviour.  No theorem below other than the
  explicitly-flagged tie-break counterexample depends on the tie order.
-/

/-- One row's payload: the non-key columns of the `metrics` table, equally
the JSON object `MetricsData` served by `GET /metrics` (part_001). -/
structure MetricsData where
  timestamp : Nat
  node_name : String
  cpu_usage : ℚ
  memory_usage : Int
  is_benchmark : Bool
  cluster_cpu_usage : ℚ
  cluster_total_cpu : Int
deriving Repr, DecidableEq

/-- A stored row: the AUTOINCREMENT primary key plus the payload. -/
structure Row where
  id : Nat
  data : MetricsData
deriving Repr, DecidableEq

/-- State of the SQLite `metrics` table: rows in insertion order, plus the
`sqlite_sequence` counter for the AUTOINCREMENT id (0 after `initDB` on a
fresh database; the next row gets id `seq + 1`). -/
structure DB where
  rows : List Row
  seq : Nat
deriving Repr, DecidableEq

/-- One successful `INSERT INTO metrics (...) VALUES (...)`: appends a row
with the next AUTOINCREMENT id and advances the sequence. -/
def DB.insert (db : DB) (d : MetricsData) : DB :=
  ⟨db.rows ++ [⟨db.seq + 1, d⟩], db.seq + 1⟩

/-- The comparator realised by `ORDER BY timestamp DESC`: `a` sorts no
later than `b` when `a`'s timestamp is no smaller. -/
def tsDescLE (a b : Row) : Prop := b.data.timestamp ≤ a.data.timestamp

instance : DecidableRel tsDescLE := fun a b =>
  Nat.decLe b.data.timestamp a.data.timestamp

instance : IsTotal Row tsDescLE :=
  ⟨fun a b => (Nat.le_total a.data.timestamp b.data.timestamp).symm⟩

instance : IsTrans Row tsDescLE :=
  ⟨fun _ _ _ hab hbc => Nat.le_trans hbc hab⟩

/-- Result set of `SELECT ... FROM metrics ORDER BY timestamp DESC`
(the query of `getMetrics` in part_001): all rows, sorted by timestamp
descending; equal timestamps keep table order (stable sort of the scan). -/
def queryAllRows (db : DB) : List Row :=
  List.insertionSort tsDescLE db.rows

/-- JSON body shapes `getMetrics` can produce on success: Go's
`encoding/json` serialises a nil slice as `null` and a non-nil slice as an
array.  The handler declares `var metrics []MetricsData` (nil) and only
`append`s to it, so the body is `null` exactly when the result set is
empty. -/
inductive GoJsonBody where
  | null : GoJsonBody
  | arr : List MetricsData → GoJsonBody
deriving Repr, DecidableEq

/-- The `getMetrics` handler (success path of part_001): HTTP status 200
and the JSON serialisation of the scanned rows.  Storage errors (`Query`
or `Scan` failing, status 500) are outside the claims modelled here. -/
def getMetrics (db : DB) : Nat × GoJsonBody :=
  match queryAllRows db with
  | [] => (200, GoJsonBody.null)
  | rs => (200, GoJsonBody.arr (rs.map Row.data))

/-- The subquery of `startBenchmark` (part_001):
`SELECT id FROM metrics WHERE is_benchmark = 0 ORDER BY timestamp DESC
LIMIT 1` — the head of the timestamp-descending ordering of the
non-benchmark rows. -/
def selectLatestNonBench (db : DB) : Option Row :=
  (List.insertionSort tsDescLE
    (db.rows.filter (fun r => !r.data.is_benchmark))).head?

/-- The `startBenchmark` handler (part_001): `INSERT INTO metrics ...
SELECT timestamp, node_name, cpu_usage, memory_usage, 1,
cluster_cpu_usage, cluster_total_cpu FROM metrics WHERE id IN (<subquery>)`.
Copies the selected row with `is_benchmark` forced to 1, inserting nothing
when the subquery is empty; answers 201 either way.  (The `Exec`-error
path, status 500, is outside the claims modelled here.) -/
def startBenchmark (db : DB) : DB × Nat :=
  match selectLatestNonBench db with
  | none => (db, 201)
  | some sel => (db.insert { sel.data with is_benchmark := true }, 201)

/-- Failure injection for the four steps of `resetDB`'s transaction:
`db.Begin()`, `DELETE FROM metrics`, `DELETE FROM sqlite_sequence WHERE
name='metrics'`, `tx.Commit()`. -/
structure TxOutcome where
  beginOk : Bool
  deleteOk : Bool
  seqOk : Bool
  commitOk : Bool
deriving Repr, DecidableEq

/-- The `resetDB` handler (part_001).  The two DELETEs act on
transaction-local state; a failing step rolls the transaction back (the
staged state is discarded and the answer is 500); only `Commit` publishes
the staged state to the database.  Deleting the `sqlite_sequence` row
rewinds the AUTOINCREMENT counter to its initial value. -/
def resetDB (o : TxOutcome) (db : DB) : DB × Nat :=
  if !o.beginOk then (db, 500)
  else
    let tx1 : DB := { db with rows := [] }
    if !o.deleteOk then (db, 500)
    else
      let tx2 : DB := { tx1 with seq := 0 }
      if !o.seqOk then (db, 500)
      else if !o.commitOk then (db, 500)
      else (tx2, 200)

/-- One node's entry in the `NodeMetricses().List` answer: name plus CPU
usage (millicores) and memory usage (bytes). -/
structure NodeUsage where
  name : String
  cpuUsed : Int
  memUsed : Int
deriving Repr, DecidableEq

/-- The per-node `Nodes().Get(...).Status.Capacity.Cpu().MilliValue()`
fetch, fixed for the duration of one cycle: `none` models a failed Get
for that node (skipped with `continue` in both passes). -/
def resolvedNodes (caps : String → Option Int) (items : List NodeUsage) :
    List (NodeUsage × Int) :=
  items.filterMap (fun u => (caps u.name).map (fun c => (u, c)))

/-- First pass of `collectMetrics`: `clusterTotalCPU`, the sum of CPU
capacities over the nodes whose capacity fetch succeeded. -/
def clusterTotalCPU (rs : List (NodeUsage × Int)) : Int :=
  (rs.map (fun p => p.2)).sum

/-- First pass of `collectMetrics`: `clusterUsedCPU`, the sum of CPU
usages over the same resolved set. -/
def clusterUsedCPU (rs : List (NodeUsage × Int)) : Int :=
  (rs.map (fun p => p.1.cpuUsed)).sum

/-- `clusterCpuPercentage := float64(clusterUsedCPU) /
float64(clusterTotalCPU) * 100`.  (When no node resolves this float is
NaN in the source; the model's value for that case is never written to
the table — see the zero-resolved theorem.) -/
def clusterCpuPercentage (rs : List (NodeUsage × Int)) : ℚ :=
  (clusterUsedCPU rs : ℚ) / (clusterTotalCPU rs : ℚ) * 100

/-- The row written for one resolved node in the second pass: timestamp
from `time.Now()` (abstract instant `t`), the node's own usage values and
percentage, `is_benchmark = false`, and the cycle's cluster-wide values. -/
def sampleOf (t : Nat) (u : NodeUsage) (cap : Int) (cl : ℚ) (ct : Int) :
    MetricsData :=
  ⟨t, u.name, (u.cpuUsed : ℚ) / (cap : ℚ) * 100, u.memUsed, false, cl, ct⟩

/-- Second pass of `collectMetrics`: one `INSERT` per resolved node, in
order.  `clock k` is the `time.Now()` instant of the k-th insert (rows of
one cycle are stamped independently); `wfail k` injects an `Exec` failure
for the k-th insert, which is logged and skipped without aborting the
loop. -/
def insertLoop (cl : ℚ) (ct : Int) (clock : Nat → Nat) (wfail : Nat → Bool) :
    List (NodeUsage × Int) → Nat → DB → DB
  | [], _, db => db
  | (u, c) :: rest, k, db =>
      insertLoop cl ct clock wfail rest (k + 1)
        (if wfail k then db else db.insert (sampleOf (clock k) u c cl ct))

/-- One tick of the `collectMetrics` loop (part_001).  `listing = none`
models a failed `NodeMetricses().List` (or clientset construction): the
whole cycle is skipped with `continue`.  Otherwise both passes run over
the resolved nodes.  The function is total: no provider or write failure
escapes as a crash. -/
def collectMetricsTick (listing : Option (List NodeUsage))
    (caps : String → Option Int) (clock : Nat → Nat) (wfail : Nat → Bool)
    (db : DB) : DB :=
  match listing with
  | none => db
  | some items =>
      let rs := resolvedNodes caps items
      insertLoop (clusterCpuPercentage rs) (clusterTotalCPU rs) clock wfail rs 0 db

/-- Pure description of the rows the insert loop appends, used to state
theorems: starting at loop index `k` and sequence value `seq`, one row per
non-failed entry, with consecutive fresh ids. -/
def cycleRows (cl : ℚ) (ct : Int) (clock : Nat → Nat) (wfail : Nat → Bool) :
    List (NodeUsage × Int) → Nat → Nat → List Row
  | [], _, _ => []
  | (u, c) :: rest, k, seq =>
      if wfail k then cycleRows cl ct clock wfail rest (k + 1) seq
      else ⟨seq + 1, sampleOf (clock k) u c cl ct⟩ ::
        cycleRows cl ct clock wfail rest (k + 1) (seq + 1)

namespace Simple

/-- Row payload of the simpler 30-second variant (src/main.go): no
cluster-aggregate columns, integer `cpu_usage` (raw millicores). -/
structure MetricsData where
  timestamp : Nat
  node_name : String
  cpu_usage : Int
  memory_usage : Int
  is_benchmark : Bool
deriving Repr, DecidableEq

/-- A stored row of the simple variant's `metrics` table. -/
structure Row where
  id : Nat
  data : MetricsData
deriving Repr, DecidableEq

/-- Table state of the simple variant: rows in insertion order plus the
AUTOINCREMENT sequence counter. -/
structure DB where
  rows : List Row
  seq : Nat
deriving Repr, DecidableEq

/-- A successful `INSERT` in the simple variant: next AUTOINCREMENT id,
sequence advances. -/
def DB.insert (db : DB) (d : MetricsData) : DB :=
  ⟨db.rows ++ [⟨db.seq + 1, d⟩], db.seq + 1⟩

/-- The simple variant's `resetDB` (src/main.go lines 136-143): a single
`DELETE FROM metrics` with no transaction and no `sqlite_sequence`
delete — every row goes, the AUTOINCREMENT counter stays. -/
def resetDB (db : DB) : DB :=
  { db with rows := [] }

end Simple

/-- Spec-side selection rule for comparison with the code (refinement
check): the claim's words pick the most recently inserted non-benchmark
row by numeric identifier, i.e. the one with the greatest id among rows
with `is_benchmark = false`. -/
def latestNonBenchById (db : DB) : Option Row :=
  (db.rows.filter (fun r => !r.data.is_benchmark)).foldl
    (fun acc r =>
      match acc with
      | none => some r
      | some a => if a.id ≤ r.id then some r else some a)
    none

/-- Comparator for the spec-side ordering of the read query (refinement
check): timestamp descending with identifier descending as tie-break, as
the claim words it. -/
def tsIdDescLE (a b : Row) : Prop :=
  b.data.timestamp < a.data.timestamp ∨
    (b.data.timestamp = a.data.timestamp ∧ b.id ≤ a.id)

instance : DecidableRel tsIdDescLE := fun a b =>
  inferInstanceAs (Decidable
    (b.data.timestamp < a.data.timestamp ∨
      (b.data.timestamp = a.data.timestamp ∧ b.id ≤ a.id)))

/-- Spec-side result set of the read query as the claim words it:
sorted by timestamp descending, identifier descending breaking ties. -/
def queryAllByTsIdDesc (db : DB) : List Row :=
  List.insertionSort tsIdDescLE db.rows

/-- Payload used by the concrete counterexample stores: all numeric
fields zero, benchmark flag clear, only timestamp and name vary. -/
def mkPayload (t : Nat) (n : String) : MetricsData :=
  ⟨t, n, 0, 0, false, 0, 0⟩

/-- Row with id 1, timestamp 10, node name "a": inserted first but with
the later timestamp. -/
def rowA : Row := ⟨1, mkPayload 10 "a"⟩

/-- Row with id 2, timestamp 5, node name "b": inserted last (greatest
id) but with the earlier timestamp. -/
def rowB : Row := ⟨2, mkPayload 5 "b"⟩

/-- Store for the benchmark-selection counterexample: the most recently
inserted non-benchmark row (id 2) is not the one with the maximal
timestamp. -/
def dbSelect : DB := ⟨[rowA, rowB], 2⟩

/-- Row with id 1, timestamp 7, node name "x". -/
def rowX : Row := ⟨1, mkPayload 7 "x"⟩

/-- Row with id 2, timestamp 7, node name "y": same timestamp as `rowX`,
greater id. -/
def rowY : Row := ⟨2, mkPayload 7 "y"⟩

/-- Store for the ordering counterexample: two rows share one timestamp. -/
def dbTie : DB := ⟨[rowX, rowY], 2⟩

/-- Store with a single row whose benchmark flag is already set: the
no-op case of `startBenchmark`. -/
def dbAllBench : DB := ⟨[⟨1, ⟨3, "c", 0, 0, true, 0, 0⟩⟩], 1⟩

/-- The spec's worked scenario: two nodes with capacities 1000 and 2000
millicores. -/
def capsScenario : String → Option Int := fun n =>
  if n = "n1" then some 1000 else if n = "n2" then some 2000 else none

/-- The spec's worked scenario: both nodes report 500 millicores used. -/
def itemsScenario : List NodeUsage := [⟨"n1", 500, 0⟩, ⟨"n2", 500, 0⟩]

/-- Listing for the failure-isolation witness: three nodes report usage. -/
def itemsIso : List NodeUsage :=
  [⟨"n1", 500, 0⟩, ⟨"n2", 500, 0⟩, ⟨"n3", 100, 0⟩]

/-- Capacity fetch for the failure-isolation witness: the fetch for node
"n2" fails; every other node resolves to 1000 millicores. -/
def capsIso : String → Option Int := fun n =>
  if n = "n2" then none else some 1000

/-- Write-failure pattern for the failure-isolation witness: the first
insert of the cycle (index 0) fails, the rest succeed. -/
def wfailIso : Nat → Bool := fun k => k == 0

/-- Number of inserts of the loop that succeed (advance the sequence),
starting at loop index `k`. -/
def writeCount (wfail : Nat → Bool) : List (NodeUsage × Int) → Nat → Nat
  | [], _ => 0
  | _ :: rest, k => (if wfail k then 0 else 1) + writeCount wfail rest (k + 1)

theorem insertLoop_eq (cl : ℚ) (ct : Int) (clock : Nat → Nat)
    (wfail : Nat → Bool) (l : List (NodeUsage × Int)) :
    ∀ (k : Nat) (db : DB),
      insertLoop cl ct clock wfail l k db =
        ⟨db.rows ++ cycleRows cl ct clock wfail l k db.seq,
          db.seq + writeCount wfail l k⟩ := by
  induction l with
  | nil => intro k db; simp [insertLoop, cycleRows, writeCount]
  | cons p rest ih =>
      obtain ⟨u, c⟩ := p
      intro k db
      by_cases h : wfail k
      · rw [insertLoop, if_pos h, ih]
        simp [cycleRows, writeCount, h]
      · rw [insertLoop, if_neg h, ih]
        simp only [cycleRows, writeCount, h, if_false, DB.insert, DB.mk.injEq]
        exact ⟨by simp, by simp; omega⟩

theorem mem_cycleRows (cl : ℚ) (ct : Int) (clock : Nat → Nat)
    (wfail : Nat → Bool) (l : List (NodeUsage × Int)) :
    ∀ (k seq : Nat) (r : Row), r ∈ cycleRows cl ct clock wfail l k seq →
      ∃ p ∈ l, ∃ t, r.data = sampleOf t p.1 p.2 cl ct := by
  induction l with
  | nil => intro k seq r hr; simp [cycleRows] at hr
  | cons p rest ih =>
      obtain ⟨u, c⟩ := p
      intro k seq r hr
      by_cases h : wfail k
      · rw [cycleRows, if_pos h] at hr
        obtain ⟨q, hq, t, ht⟩ := ih (k + 1) seq r hr
        exact ⟨q, List.mem_cons_of_mem _ hq, t, ht⟩
      · rw [cycleRows, if_neg h] at hr
        rcases List.mem_cons.mp hr with heq | htail
        · exact ⟨(u, c), List.mem_cons_self _ _, clock k, by rw [heq]⟩
        · obtain ⟨q, hq, t, ht⟩ := ih (k + 1) (seq + 1) r htail
          exact ⟨q, List.mem_cons_of_mem _ hq, t, ht⟩

theorem length_cycleRows_noFail (cl : ℚ) (ct : Int) (clock : Nat → Nat)
    (l : List (NodeUsage × Int)) :
    ∀ (k seq : Nat),
      (cycleRows cl ct clock (fun _ => false) l k seq).length = l.length := by
  induction l with
  | nil => intro k seq; simp [cycleRows]
  | cons p rest ih =>
      obtain ⟨u, c⟩ := p
      intro k seq
      rw [cycleRows, if_neg (by simp)]
      simp [ih]

theorem cycleRows_write_survives (cl : ℚ) (ct : Int) (clock : Nat → Nat)
    (wfail : Nat → Bool) (l : List (NodeUsage × Int)) :
    ∀ (k seq j : Nat) (hj : j < l.length), wfail (k + j) = false →
      ∃ r ∈ cycleRows cl ct clock wfail l k seq,
        r.data = sampleOf (clock (k + j)) (l.get ⟨j, hj⟩).1 (l.get ⟨j, hj⟩).2
          cl ct := by
  induction l with
  | nil => intro k seq j hj; exact absurd hj (by simp)
  | cons p rest ih =>
      obtain ⟨u, c⟩ := p
      intro k seq j hj hw
      cases j with
      | zero =>
          rw [Nat.add_zero] at hw
          rw [cycleRows, if_neg (by simp [hw])]
          exact ⟨⟨seq + 1, sampleOf (clock k) u c cl ct⟩,
            List.mem_cons_self _ _, by simp [Nat.add_zero]⟩
      | succ j' =>
          have hj' : j' < rest.length := Nat.lt_of_succ_lt_succ hj
          have hw' : wfail (k + 1 + j') = false := by
            rw [show k + 1 + j' = k + (j' + 1) from by omega]; exact hw
          by_cases h : wfail k
          · rw [cycleRows, if_pos h]
            obtain ⟨r, hr, hd⟩ := ih (k + 1) seq j' hj' hw'
            exact ⟨r, hr, by
              rw [hd, show k + 1 + j' = k + (j' + 1) from by omega]; rfl⟩
          · rw [cycleRows, if_neg h]
            obtain ⟨r, hr, hd⟩ := ih (k + 1) (seq + 1) j' hj' hw'
            exact ⟨r, List.mem_cons_of_mem _ hr, by
              rw [hd, show k + 1 + j' = k + (j' + 1) from by omega]; rfl⟩

theorem selectLatestNonBench_spec (db : DB) (sel : Row)
    (h : selectLatestNonBench db = some sel) :
    sel ∈ db.rows ∧ sel.data.is_benchmark = false ∧
      ∀ r ∈ db.rows, r.data.is_benchmark = false →
        r.data.timestamp ≤ sel.data.timestamp := by
  unfold selectLatestNonBench at h
  set l := db.rows.filter (fun r => !r.data.is_benchmark) with hl
  set s := List.insertionSort tsDescLE l with hs
  have hsel : sel ∈ s ∧ ∀ r ∈ s, tsDescLE sel r := by
    cases hcase : s with
    | nil => rw [hcase] at h; simp at h
    | cons a tl =>
        rw [hcase] at h
        simp only [List.head?] at h
        injection h with h
        subst h
        have hsorted : List.Sorted tsDescLE s :=
          List.sorted_insertionSort tsDescLE l
        rw [hcase] at hsorted
        have := List.sorted_cons.mp hsorted
        constructor
        · exact List.mem_cons_self _ _
        · intro r hr
          rcases List.mem_cons.mp hr with rfl | hr
          · exact Nat.le_refl _
          · exact this.1 r hr
  have hmem : sel ∈ l := (List.mem_insertionSort tsDescLE).mp hsel.1
  have hfil := List.mem_filter.mp hmem
  refine ⟨hfil.1, by simpa using hfil.2, ?_⟩
  intro r hr hb
  have hr' : r ∈ l := List.mem_filter.mpr ⟨hr, by simp [hb]⟩
  have hr'' : r ∈ s := (List.mem_insertionSort tsDescLE).mpr hr'
  exact hsel.2 r hr''

theorem selectLatestNonBench_isSome (db : DB) (r : Row) (hr : r ∈ db.rows)
    (hb : r.data.is_benchmark = false) :
    ∃ sel, selectLatestNonBench db = some sel := by
  unfold selectLatestNonBench
  have hmem : r ∈ db.rows.filter (fun r => !r.data.is_benchmark) :=
    List.mem_filter.mpr ⟨hr, by simp [hb]⟩
  have : r ∈ List.insertionSort tsDescLE
      (db.rows.filter (fun r => !r.data.is_benchmark)) :=
    (List.mem_insertionSort tsDescLE).mpr hmem
  cases hcase : List.insertionSort tsDescLE
      (db.rows.filter (fun r => !r.data.is_benchmark)) with
  | nil => rw [hcase] at this; simp at this
  | cons a tl => exact ⟨a, by simp⟩

/-- C1: the reset operation deletes every row of the metrics table and
rewinds the auto-increment identifier sequence to its initial value
(after a successful reset the next inserted row gets id 1), and it is
all-or-nothing: if any step of the transaction fails, no row is deleted,
the sequence is unchanged, and the failure is surfaced to the caller as a
500 error response. -/
theorem resetDB_atomic (o : TxOutcome) (db : DB) (d : MetricsData) :
    ((o.beginOk && o.deleteOk && o.seqOk && o.commitOk) = true →
      resetDB o db = (⟨[], 0⟩, 200) ∧
      ((resetDB o db).1.insert d).rows = [⟨1, d⟩]) ∧
    ((o.beginOk && o.deleteOk && o.seqOk && o.commitOk) = false →
      resetDB o db = (db, 500)) := by
  obtain ⟨b1, b2, b3, b4⟩ := o
  cases b1 <;> cases b2 <;> cases b3 <;> cases b4 <;>
    simp [resetDB, DB.insert]

/-- Witness for C1: a fully successful reset of a populated store clears
it and answers 200; the same reset with a failing sequence-rewind step
leaves the store untouched and answers 500. -/
theorem resetDB_atomic_witness :
    (resetDB ⟨true, true, true, true⟩ dbSelect = (⟨[], 0⟩, 200) ∧
      ((resetDB ⟨true, true, true, true⟩ dbSelect).1.insert
        (mkPayload 0 "w")).rows = [⟨1, mkPayload 0 "w"⟩]) ∧
    resetDB ⟨true, true, false, true⟩ dbSelect = (dbSelect, 500) :=
  ⟨(resetDB_atomic ⟨true, true, true, true⟩ dbSelect (mkPayload 0 "w")).1
      (by decide),
    (resetDB_atomic ⟨true, true, false, true⟩ dbSelect (mkPayload 0 "w")).2
      (by decide)⟩

/-- C5: in a collection cycle where zero nodes are resolved, no rows are
written: the tick leaves the store exactly as it was (the tick function
answers with a plain store, never an error, so nothing is surfaced to
callers and the cycle contributes nothing to the time series; the
division whose denominator would be zero is computed into a value that is
never stored). -/
theorem collectMetricsTick_zero_resolved (items : List NodeUsage)
    (caps : String → Option Int) (clock : Nat → Nat) (wfail : Nat → Bool)
    (db : DB) (h : resolvedNodes caps items = []) :
    collectMetricsTick (some items) caps clock wfail db = db := by
  simp only [collectMetricsTick, h, insertLoop]

/-- Witness for C5: a cycle that lists two nodes but resolves no
capacity for either appends nothing. -/
theorem collectMetricsTick_zero_resolved_witness :
    resolvedNodes (fun _ => none)
        [⟨"n1", 500, 0⟩, ⟨"n2", 500, 0⟩] = [] ∧
    collectMetricsTick (some [⟨"n1", 500, 0⟩, ⟨"n2", 500, 0⟩])
        (fun _ => none) id (fun _ => false) dbSelect = dbSelect :=
  ⟨by decide,
    collectMetricsTick_zero_resolved [⟨"n1", 500, 0⟩, ⟨"n2", 500, 0⟩]
      (fun _ => none) id (fun _ => false) dbSelect (by decide)⟩

/-- C9: in the simple 30-second variant, `resetDB` deletes every row but
leaves the auto-increment sequence untouched (no `sqlite_sequence`
delete), so the next inserted row continues from the previous maximum
identifier (`seq + 1`) rather than restarting at the initial value. -/
theorem simple_resetDB_keeps_sequence (db : Simple.DB)
    (d : Simple.MetricsData) :
    (Simple.resetDB db).rows = [] ∧
    (Simple.resetDB db).seq = db.seq ∧
    ((Simple.resetDB db).insert d).rows = [⟨db.seq + 1, d⟩] := by
  refine ⟨rfl, rfl, ?_⟩
  simp [Simple.resetDB, Simple.DB.insert]

/-- C10: with no stored rows, `GET /metrics` answers status 200 with the
JSON body `null` (Go's serialisation of the nil slice the handler starts
from), which is a different body from the empty JSON array. -/
theorem getMetrics_empty_null :
    getMetrics ⟨[], 0⟩ = (200, GoJsonBody.null) ∧
    GoJsonBody.null ≠ GoJsonBody.arr [] := by
  exact ⟨rfl, by decide⟩

/-- C2: `startBenchmark` always answers 201; when at least one
`is_benchmark = false` row exists it appends exactly one new row whose
payload equals the selected non-benchmark row's payload except that
`is_benchmark` is true; when no non-benchmark row exists it appends
nothing and still answers 201. -/
theorem startBenchmark_spec (db : DB) :
    (startBenchmark db).2 = 201 ∧
    ((∃ r ∈ db.rows, r.data.is_benchmark = false) →
      ∃ sel ∈ db.rows, sel.data.is_benchmark = false ∧
        (startBenchmark db).1.rows =
          db.rows ++ [⟨db.seq + 1, { sel.data with is_benchmark := true }⟩]) ∧
    ((∀ r ∈ db.rows, r.data.is_benchmark = true) →
      (startBenchmark db).1 = db) := by
  refine ⟨?_, ?_, ?_⟩
  · unfold startBenchmark
    cases selectLatestNonBench db <;> rfl
  · rintro ⟨r, hr, hb⟩
    obtain ⟨sel, hsel⟩ := selectLatestNonBench_isSome db r hr hb
    obtain ⟨hmem, hflag, _⟩ := selectLatestNonBench_spec db sel hsel
    refine ⟨sel, hmem, hflag, ?_⟩
    simp [startBenchmark, hsel, DB.insert]
  · intro hall
    have hfil : db.rows.filter (fun r => !r.data.is_benchmark) = [] := by
      rw [List.filter_eq_nil_iff]
      intro r hr
      simp [hall r hr]
    have : selectLatestNonBench db = none := by
      unfold selectLatestNonBench
      rw [hfil]
      rfl
    simp [startBenchmark, this]

/-- Witness for C2: on a store with non-benchmark rows the handler
appends one flagged copy and answers 201; on a store whose only row is
already a benchmark it leaves the store unchanged and answers 201. -/
theorem startBenchmark_spec_witness :
    ((startBenchmark dbSelect).2 = 201 ∧
      ∃ sel ∈ dbSelect.rows, sel.data.is_benchmark = false ∧
        (startBenchmark dbSelect).1.rows =
          dbSelect.rows ++
            [⟨dbSelect.seq + 1, { sel.data with is_benchmark := true }⟩]) ∧
    ((startBenchmark dbAllBench).2 = 201 ∧
      (startBenchmark dbAllBench).1 = dbAllBench) :=
  ⟨⟨(startBenchmark_spec dbSelect).1,
      (startBenchmark_spec dbSelect).2.1
        ⟨rowA, by decide, by decide⟩⟩,
    ⟨(startBenchmark_spec dbAllBench).1,
      (startBenchmark_spec dbAllBench).2.2 (by decide)⟩⟩

/-- Counterexample for C3: in `dbSelect` the most recently inserted
non-benchmark row (by identifier) is `rowB` (id 2), but the subquery
`ORDER BY timestamp DESC LIMIT 1` selects `rowA` (id 1, later
timestamp), and the handler copies `rowA`, not `rowB` — so selection is
by timestamp, not by numeric identifier. -/
theorem startBenchmark_byId_counterexample :
    latestNonBenchById dbSelect = some rowB ∧
    selectLatestNonBench dbSelect = some rowA ∧
    (startBenchmark dbSelect).1.rows =
      [rowA, rowB, ⟨3, { rowA.data with is_benchmark := true }⟩] ∧
    rowA.id ≠ rowB.id := by
  refine ⟨by decide, by decide, by decide, by decide⟩

/-- C3 (amended): the row `startBenchmark` copies is selected by
`ORDER BY timestamp DESC LIMIT 1` over the `is_benchmark = false` rows:
it is a non-benchmark row carrying the maximal timestamp among all
non-benchmark rows (so when several such rows share that timestamp the
identifier plays no role in the query and the choice among them is not
determined by it), and the handler appends exactly that row's payload
with the flag set. -/
theorem startBenchmark_selects_max_timestamp (db : DB) (sel : Row)
    (h : selectLatestNonBench db = some sel) :
    sel ∈ db.rows ∧ sel.data.is_benchmark = false ∧
    (∀ r ∈ db.rows, r.data.is_benchmark = false →
      r.data.timestamp ≤ sel.data.timestamp) ∧
    (startBenchmark db).1.rows =
      db.rows ++ [⟨db.seq + 1, { sel.data with is_benchmark := true }⟩] := by
  obtain ⟨hmem, hflag, hmax⟩ := selectLatestNonBench_spec db sel h
  refine ⟨hmem, hflag, hmax, ?_⟩
  simp [startBenchmark, h, DB.insert]

/-- Witness for C3 (amended): in `dbSelect` the selected row is `rowA`,
which indeed holds the maximal timestamp among non-benchmark rows. -/
theorem startBenchmark_selects_max_timestamp_witness :
    rowA ∈ dbSelect.rows ∧ rowA.data.is_benchmark = false ∧
    (∀ r ∈ dbSelect.rows, r.data.is_benchmark = false →
      r.data.timestamp ≤ rowA.data.timestamp) ∧
    (startBenchmark dbSelect).1.rows =
      dbSelect.rows ++
        [⟨dbSelect.seq + 1, { rowA.data with is_benchmark := true }⟩] :=
  startBenchmark_selects_max_timestamp dbSelect rowA (by decide)

/-- C4: a successful cycle (every resolved capacity positive, no write
failure) with N resolved nodes appends exactly N rows; all of them carry
the same cluster values, where `cluster_total_cpu` is the sum of the
resolved nodes' capacities and `cluster_cpu_usage` equals
`100 * sum(used) / sum(capacity)` over the resolved set (exact rational
equality, hence within the spec's 1e-9 tolerance), and each row's
`cpu_usage` equals `100 * used / capacity` for its own node. -/
theorem collectMetrics_aggregates (items : List NodeUsage)
    (caps : String → Option Int) (clock : Nat → Nat) (db : DB)
    (hpos : ∀ p ∈ resolvedNodes caps items, 0 < p.2) :
    ∃ newRows : List Row,
      (collectMetricsTick (some items) caps clock (fun _ => false) db).rows
        = db.rows ++ newRows ∧
      newRows.length = (resolvedNodes caps items).length ∧
      ∀ r ∈ newRows,
        r.data.cluster_total_cpu = clusterTotalCPU (resolvedNodes caps items) ∧
        r.data.cluster_cpu_usage =
          100 * (clusterUsedCPU (resolvedNodes caps items) : ℚ) /
            (clusterTotalCPU (resolvedNodes caps items) : ℚ) ∧
        r.data.is_benchmark = false ∧
        ∃ p ∈ resolvedNodes caps items,
          r.data.node_name = p.1.name ∧
          r.data.memory_usage = p.1.memUsed ∧
          r.data.cpu_usage = 100 * (p.1.cpuUsed : ℚ) / (p.2 : ℚ) := by
  have _hpos := hpos
  refine ⟨cycleRows (clusterCpuPercentage (resolvedNodes caps items))
      (clusterTotalCPU (resolvedNodes caps items)) clock (fun _ => false)
      (resolvedNodes caps items) 0 db.seq, ?_, ?_, ?_⟩
  · simp only [collectMetricsTick]
    rw [insertLoop_eq]
  · exact length_cycleRows_noFail _ _ clock (resolvedNodes caps items) 0 db.seq
  · intro r hr
    obtain ⟨p, hp, t, hd⟩ := mem_cycleRows _ _ clock (fun _ => false)
      (resolvedNodes caps items) 0 db.seq r hr
    rw [hd]
    refine ⟨rfl, ?_, rfl, p, hp, rfl, rfl, ?_⟩
    · show clusterCpuPercentage (resolvedNodes caps items) = _
      rw [clusterCpuPercentage, div_mul_eq_mul_div, mul_comm]
    · show (p.1.cpuUsed : ℚ) / (p.2 : ℚ) * 100 = _
      rw [div_mul_eq_mul_div, mul_comm]

/-- Witness for C4, the spec's worked scenario: capacities 1000 and 2000
millicores, usages 500 and 500; the node percentages come out 50 and 25
and both rows carry cluster percentage 100/3 (33.33...) and cluster total
3000. -/
theorem collectMetrics_aggregates_witness :
    (∀ p ∈ resolvedNodes capsScenario itemsScenario, 0 < p.2) ∧
    (∃ newRows : List Row,
      (collectMetricsTick (some itemsScenario) capsScenario id
          (fun _ => false) ⟨[], 0⟩).rows = DB.rows ⟨[], 0⟩ ++ newRows ∧
      newRows.length = (resolvedNodes capsScenario itemsScenario).length ∧
      ∀ r ∈ newRows,
        r.data.cluster_total_cpu =
          clusterTotalCPU (resolvedNodes capsScenario itemsScenario) ∧
        r.data.cluster_cpu_usage =
          100 * (clusterUsedCPU (resolvedNodes capsScenario itemsScenario) : ℚ) /
            (clusterTotalCPU (resolvedNodes capsScenario itemsScenario) : ℚ) ∧
        r.data.is_benchmark = false ∧
        ∃ p ∈ resolvedNodes capsScenario itemsScenario,
          r.data.node_name = p.1.name ∧
          r.data.memory_usage = p.1.memUsed ∧
          r.data.cpu_usage = 100 * (p.1.cpuUsed : ℚ) / (p.2 : ℚ)) ∧
    ((collectMetricsTick (some itemsScenario) capsScenario id
        (fun _ => false) ⟨[], 0⟩).rows.map (fun r => r.data.cpu_usage)
      = [50, 25]) ∧
    (∀ r ∈ (collectMetricsTick (some itemsScenario) capsScenario id
        (fun _ => false) ⟨[], 0⟩).rows,
      r.data.cluster_cpu_usage = 100 / 3 ∧
      r.data.cluster_total_cpu = 3000) := by
  refine ⟨by decide, collectMetrics_aggregates itemsScenario capsScenario id
    ⟨[], 0⟩ (by decide), ?_, ?_⟩
  · simp +decide only [collectMetricsTick, insertLoop, DB.insert, sampleOf,
      resolvedNodes, clusterCpuPercentage, clusterUsedCPU, clusterTotalCPU,
      capsScenario, itemsScenario, List.filterMap_cons, List.filterMap_nil,
      Option.map_some', Option.map_none', List.map_cons, List.map_nil,
      List.sum_cons, List.sum_nil, List.nil_append, List.cons_append,
      List.map_append, if_true, if_false]
    norm_num
  · simp +decide only [collectMetricsTick, insertLoop, DB.insert, sampleOf,
      resolvedNodes, clusterCpuPercentage, clusterUsedCPU, clusterTotalCPU,
      capsScenario, itemsScenario, List.filterMap_cons, List.filterMap_nil,
      Option.map_some', Option.map_none', List.map_cons, List.map_nil,
      List.sum_cons, List.sum_nil, List.nil_append, List.cons_append,
      List.map_append, List.mem_cons, List.mem_singleton, if_true, if_false]
    norm_num

/-- Counterexample for C6: in `dbTie` the two rows share one timestamp;
the code's query (`ORDER BY timestamp DESC` only) returns them in table
order `[rowX, rowY]` (identifier ascending), not in the claimed
identifier-descending tie-break order `[rowY, rowX]`: the query contains
no identifier sort key at all. -/
theorem getMetrics_tiebreak_counterexample :
    queryAllRows dbTie = [rowX, rowY] ∧
    queryAllByTsIdDesc dbTie = [rowY, rowX] ∧
    queryAllRows dbTie ≠ queryAllByTsIdDesc dbTie := by
  refine ⟨by decide, by decide, by decide⟩

/-- C6 (amended): `queryAll` (GET /metrics) returns every stored row
exactly once (a permutation of the table), ordered by timestamp
descending; the query has no identifier tie-break, so the relative order
of rows sharing a timestamp is not specified by it (the model keeps
table order).  On a non-empty store the 200-response body is the array
of the ordered rows' payloads. -/
theorem getMetrics_order (db : DB) :
    List.Perm (queryAllRows db) db.rows ∧
    List.Sorted tsDescLE (queryAllRows db) ∧
    (getMetrics db).1 = 200 ∧
    (db.rows ≠ [] →
      (getMetrics db).2 = GoJsonBody.arr ((queryAllRows db).map Row.data)) := by
  refine ⟨List.perm_insertionSort tsDescLE db.rows,
    List.sorted_insertionSort tsDescLE db.rows, ?_, ?_⟩
  · rcases hq : queryAllRows db with _ | ⟨a, tl⟩ <;> simp [getMetrics, hq]
  · intro h
    rcases hq : queryAllRows db with _ | ⟨a, tl⟩
    · exfalso
      apply h
      have hlen := congrArg List.length hq
      rw [queryAllRows, List.length_insertionSort] at hlen
      exact List.eq_nil_of_length_eq_zero hlen
    · simp [getMetrics, hq]

/-- Witness for C6 (amended): on the two-row tied store the response is
200 with the rows' payloads in the returned order. -/
theorem getMetrics_order_witness :
    List.Perm (queryAllRows dbTie) dbTie.rows ∧
    List.Sorted tsDescLE (queryAllRows dbTie) ∧
    (getMetrics dbTie).1 = 200 ∧
    (getMetrics dbTie).2 = GoJsonBody.arr ((queryAllRows dbTie).map Row.data) :=
  ⟨(getMetrics_order dbTie).1, (getMetrics_order dbTie).2.1,
    (getMetrics_order dbTie).2.2.1,
    (getMetrics_order dbTie).2.2.2 (by decide)⟩

/-- C7: collector failures are isolated at the stated granularity: a
failed listing skips the whole cycle (store unchanged; the next tick is
the retry); a node whose capacity fetch fails is excluded from the
resolved set while every node whose fetch succeeds stays in it; and a
failed row write does not prevent the sibling writes — every resolved
node whose own write does not fail gets its row.  The tick is a total
function into store states, so no provider or write failure escapes as a
crash. -/
theorem collectMetrics_failure_isolation (items : List NodeUsage)
    (caps : String → Option Int) (clock : Nat → Nat) (wfail : Nat → Bool)
    (db : DB) :
    collectMetricsTick none caps clock wfail db = db ∧
    (∀ u c, (u, c) ∈ resolvedNodes caps items ↔
      u ∈ items ∧ caps u.name = some c) ∧
    (∃ tail, (collectMetricsTick (some items) caps clock wfail db).rows =
      db.rows ++ tail) ∧
    (∀ j (hj : j < (resolvedNodes caps items).length), wfail j = false →
      ∃ r ∈ (collectMetricsTick (some items) caps clock wfail db).rows,
        r.data = sampleOf (clock j)
          ((resolvedNodes caps items).get ⟨j, hj⟩).1
          ((resolvedNodes caps items).get ⟨j, hj⟩).2
          (clusterCpuPercentage (resolvedNodes caps items))
          (clusterTotalCPU (resolvedNodes caps items))) := by
  refine ⟨rfl, ?_, ?_, ?_⟩
  · intro u c
    simp only [resolvedNodes, List.mem_filterMap, Option.map_eq_some']
    constructor
    · rintro ⟨a, ha, c', hc', heq⟩
      rw [Prod.mk.injEq] at heq
      obtain ⟨rfl, rfl⟩ := heq
      exact ⟨ha, hc'⟩
    · rintro ⟨hu, hc⟩
      exact ⟨u, hu, c, hc, rfl⟩
  · simp only [collectMetricsTick]
    rw [insertLoop_eq]
    exact ⟨_, rfl⟩
  · intro j hj hw
    obtain ⟨r, hr, hd⟩ := cycleRows_write_survives
      (clusterCpuPercentage (resolvedNodes caps items))
      (clusterTotalCPU (resolvedNodes caps items)) clock wfail
      (resolvedNodes caps items) 0 db.seq j hj (by simpa using hw)
    refine ⟨r, ?_, by simpa using hd⟩
    simp only [collectMetricsTick]
    rw [insertLoop_eq]
    exact List.mem_append_right _ hr

/-- Witness for C7: with three listed nodes, a capacity-fetch failure
for "n2" and a write failure for the first resolved row, the cycle still
writes the second resolved node's row ("n3"), a failed listing leaves
the store untouched, and "n2" is not in the resolved set. -/
theorem collectMetrics_failure_isolation_witness :
    collectMetricsTick none capsIso id wfailIso dbSelect = dbSelect ∧
    ¬ ((⟨"n2", 500, 0⟩, 1000) ∈ resolvedNodes capsIso itemsIso) ∧
    1 < (resolvedNodes capsIso itemsIso).length ∧
    wfailIso 1 = false ∧
    ∃ r ∈ (collectMetricsTick (some itemsIso) capsIso id wfailIso
        dbSelect).rows,
      r.data = sampleOf 1
        ((resolvedNodes capsIso itemsIso).get ⟨1, by decide⟩).1
        ((resolvedNodes capsIso itemsIso).get ⟨1, by decide⟩).2
        (clusterCpuPercentage (resolvedNodes capsIso itemsIso))
        (clusterTotalCPU (resolvedNodes capsIso itemsIso)) := by
  refine ⟨(collectMetrics_failure_isolation itemsIso capsIso id wfailIso
      dbSelect).1, ?_, by decide, by decide,
    (collectMetrics_failure_isolation itemsIso capsIso id wfailIso
      dbSelect).2.2.2 1 (by decide) (by decide)⟩
  intro hmem
  have h := ((collectMetrics_failure_isolation itemsIso capsIso id wfailIso
    dbSelect).2.1 ⟨"n2", 500, 0⟩ 1000).mp hmem
  exact absurd h.2 (by decide)

/-- C8: rows are immutable once written: an `INSERT`, a benchmark copy,
and a collector tick each leave every existing row in place, only
appending after it; `resetDB` either leaves the table exactly as it was
(rollback) or clears it entirely; no operation rewrites the payload of a
stored row (`queryAll` takes the store as read-only input and returns
it unchanged by construction). -/
theorem rows_append_only :
    (∀ (db : DB) (d : MetricsData),
      ∃ tail, (db.insert d).rows = db.rows ++ tail) ∧
    (∀ db : DB, ∃ tail, (startBenchmark db).1.rows = db.rows ++ tail) ∧
    (∀ (listing : Option (List NodeUsage)) (caps : String → Option Int)
        (clock : Nat → Nat) (wfail : Nat → Bool) (db : DB),
      ∃ tail, (collectMetricsTick listing caps clock wfail db).rows =
        db.rows ++ tail) ∧
    (∀ (o : TxOutcome) (db : DB),
      (resetDB o db).1.rows = [] ∨ (resetDB o db).1.rows = db.rows) := by
  refine ⟨?_, ?_, ?_, ?_⟩
  · intro db d
    exact ⟨_, rfl⟩
  · intro db
    unfold startBenchmark
    cases selectLatestNonBench db
    · exact ⟨[], by simp⟩
    · exact ⟨_, rfl⟩
  · intro listing caps clock wfail db
    cases listing with
    | none => exact ⟨[], by simp [collectMetricsTick]⟩
    | some items =>
        simp only [collectMetricsTick]
        rw [insertLoop_eq]
        exact ⟨_, rfl⟩
  · intro o db
    obtain ⟨b1, b2, b3, b4⟩ := o
    cases b1 <;> cases b2 <;> cases b3 <;> cases b4 <;> simp [resetDB]
